import Mathlib

/-!
Shallow embedding of `src/main.py` (PyQt5 dashboard alarm): the alarm
controller, the two feed clients' parsing logic, and the favorites store.
GUI layout, styling and the actual network / Qt event loop are out of scope;
external I/O results (HTTP responses, the current instant, the favorites
file's parse outcome) enter the model as explicit parameters.
-/

namespace Dashboard

/-- A Python/JSON value as produced by `json.loads` and by the remote APIs.
Numbers are modelled as integers (no claim touches fractional numbers). -/
inductive Json where
  | null
  | bool (b : Bool)
  | num (n : Int)
  | str (s : String)
  | arr (xs : List Json)
  | obj (kvs : List (String × Json))

/-- Python truthiness of a JSON value (`if v:`): `None`, `False`, `0`, `""`,
`[]` and `{}` are falsy. -/
def pyTruthy : Json → Bool
  | .null => false
  | .bool b => b
  | .num n => n != 0
  | .str s => s != ""
  | .arr xs => !xs.isEmpty
  | .obj kvs => !kvs.isEmpty

/-- Truthiness of an `Optional[str]` (`if not self.token:`): absent or empty
strings are falsy. -/
def optStrTruthy : Option String → Bool
  | none => false
  | some s => s != ""

/-- The Python exceptions the embedded code can raise. -/
inductive PyError where
  | nameError
  | attributeError
  | typeError
  | keyError
  | indexError
  | valueError
deriving Repr, DecidableEq

/-- First value bound to `key` in a JSON object's entry list
(CPython dicts have unique keys; `json.loads` keeps the last duplicate,
but no claim involves duplicate keys). -/
def jsonLookup (kvs : List (String × Json)) (key : String) : Option Json :=
  (kvs.find? (fun kv => kv.1 == key)).map (·.2)

/-- `d.get(key, default)` on a Python value: attribute error unless it is a
dict. -/
def dictGet (j : Json) (key : String) (default : Json) : Except PyError Json :=
  match j with
  | .obj kvs => .ok ((jsonLookup kvs key).getD default)
  | _ => .error .attributeError

/-- `d[key]` on a Python value with a string key: key error when absent,
attribute-style type error unless it is a dict (Python raises `TypeError`
for subscripting non-subscriptables; the claims never hit that case with a
non-dict). -/
def dictItem (j : Json) (key : String) : Except PyError Json :=
  match j with
  | .obj kvs =>
    match jsonLookup kvs key with
    | some v => .ok v
    | none => .error .keyError
  | _ => .error .typeError

/-- `datetime.datetime`: calendar fields plus an optional fixed UTC offset in
minutes (`tzinfo`; `none` models a naive datetime). -/
structure PyDT where
  year : Nat
  month : Nat
  day : Nat
  hour : Nat
  minute : Nat
  second : Nat
  tz : Option Int
deriving Repr, DecidableEq

/-- `datetime.time` at the granularity this program reads (hour/minute; no
code path of the repository reads a stored time's seconds). -/
structure TimeHM where
  hour : Nat
  minute : Nat
deriving Repr, DecidableEq

/-- Two-digit zero-padded rendering shared by `strftime("%H:%M")` and
`QTime.toString("HH:mm")`. -/
def pad2 (n : Nat) : List Char :=
  [Nat.digitChar (n / 10 % 10), Nat.digitChar (n % 10)]

/-- `"%H:%M"` / `"HH:mm"` formatting of an hour/minute pair. -/
def formatHM (hour minute : Nat) : String :=
  ⟨pad2 hour ++ ':' :: pad2 minute⟩

/-- Numeric value of a decimal digit character, `none` otherwise. -/
def charDigit (c : Char) : Option Nat :=
  if c.isDigit then some (c.toNat - 48) else none

/-- Two decimal digits read as a number. -/
def num2 (c1 c2 : Char) : Option Nat := do
  let d1 ← charDigit c1
  let d2 ← charDigit c2
  pure (10 * d1 + d2)

/-- Four decimal digits read as a number. -/
def num4 (c1 c2 c3 c4 : Char) : Option Nat := do
  let hi ← num2 c1 c2
  let lo ← num2 c3 c4
  pure (100 * hi + lo)

def isLeapYear (y : Nat) : Bool :=
  y % 4 == 0 && (y % 100 != 0 || y % 400 == 0)

def daysInMonth (y mo : Nat) : Nat :=
  if mo == 2 then (if isLeapYear y then 29 else 28)
  else if mo == 4 || mo == 6 || mo == 9 || mo == 11 then 30
  else 31

/-- `HH[:MM[:SS]]` prefix of an ISO time part; returns the remaining
characters (a possible UTC-offset suffix). -/
def parseTimePart (cs : List Char) : Option (Nat × Nat × Nat × List Char) := do
  match cs with
  | h1 :: h2 :: rest =>
    let h ← num2 h1 h2
    if h ≥ 24 then none else
    match rest with
    | ':' :: m1 :: m2 :: rest2 =>
      let m ← num2 m1 m2
      if m ≥ 60 then none else
      match rest2 with
      | ':' :: s1 :: s2 :: rest3 =>
        let sec ← num2 s1 s2
        if sec ≥ 60 then none else pure (h, m, sec, rest3)
      | _ => pure (h, m, 0, rest2)
    | _ => pure (h, 0, 0, rest)
  | _ => none

/-- Optional `±HH:MM` UTC-offset suffix, as minutes. -/
def parseOffset (cs : List Char) : Option (Option Int) :=
  match cs with
  | [] => some none
  | '+' :: h1 :: h2 :: ':' :: m1 :: m2 :: [] => do
    let h ← num2 h1 h2
    let m ← num2 m1 m2
    if h ≥ 24 || m ≥ 60 then none else pure (some ((h : Int) * 60 + m))
  | '-' :: h1 :: h2 :: ':' :: m1 :: m2 :: [] => do
    let h ← num2 h1 h2
    let m ← num2 m1 m2
    if h ≥ 24 || m ≥ 60 then none else pure (some (-((h : Int) * 60 + m)))
  | _ => none

/-- Modelled from the Python standard library: `datetime.fromisoformat` for
the input shapes this program feeds it — `YYYY-MM-DD`, or
`YYYY-MM-DD<sep>HH[:MM[:SS]]` with an optional `±HH:MM` offset (the
pre-3.11 grammar; fractional seconds, which no claim touches, are not
modelled and parse as failure, i.e. `ValueError`). -/
def fromisoformat (s : String) : Option PyDT :=
  match s.data with
  | y1 :: y2 :: y3 :: y4 :: '-' :: mo1 :: mo2 :: '-' :: d1 :: d2 :: rest => do
    let y ← num4 y1 y2 y3 y4
    let mo ← num2 mo1 mo2
    let d ← num2 d1 d2
    if mo < 1 || mo > 12 then none else
    if d < 1 || d > daysInMonth y mo then none else
    match rest with
    | [] => pure ⟨y, mo, d, 0, 0, 0, none⟩
    | _sep :: timecs => do
      let (h, mi, sec, offcs) ← parseTimePart timecs
      let tz ← parseOffset offcs
      pure ⟨y, mo, d, h, mi, sec, tz⟩
  | _ => none

/-- `dt + timedelta(hours=1)` on the calendar fields (the fixed-offset
`tzinfo` is unchanged by timedelta addition). -/
def addOneHour (dt : PyDT) : PyDT :=
  if dt.hour + 1 < 24 then { dt with hour := dt.hour + 1 }
  else if dt.day + 1 ≤ daysInMonth dt.year dt.month then
    { dt with hour := 0, day := dt.day + 1 }
  else if dt.month + 1 ≤ 12 then
    { dt with hour := 0, day := 1, month := dt.month + 1 }
  else
    { dt with hour := 0, day := 1, month := 1, year := dt.year + 1 }

/-! ## AlarmController (src/main.py lines 75-114)

The controller's observable footprint: its two state fields, the GPIO pin's
last-written level, and an event log for the effects the claims count —
number of pin-active (`True`) writes, number of `alarm_triggered` emissions,
and the delays (ms) of `QTimer.singleShot(_, self.stop_alarm)` calls. -/

structure AlarmController where
  active_time : Option TimeHM
  alarm_active : Bool
  /-- Last level written by `GPIO.output(self.pin, _)`. -/
  pin_level : Bool
  /-- How many times `GPIO.output(self.pin, True)` has run. -/
  pin_active_writes : Nat
  /-- How many times `self.alarm_triggered.emit()` has run. -/
  emit_count : Nat
  /-- Delays (ms) of scheduled `stop_alarm` single-shot timers, newest first. -/
  scheduled_stops : List Nat
deriving Repr, DecidableEq

namespace AlarmController

/-- `__init__`: no armed time, not triggered, pin written inactive. -/
def init : AlarmController :=
  { active_time := none, alarm_active := false, pin_level := false
    pin_active_writes := 0, emit_count := 0, scheduled_stops := [] }

def set_alarm (s : AlarmController) (alarm_time : TimeHM) : AlarmController :=
  { s with active_time := some alarm_time, alarm_active := false }

def clear_alarm (s : AlarmController) : AlarmController :=
  { s with active_time := none, alarm_active := false, pin_level := false }

def check_alarm (s : AlarmController) (current_time : PyDT) : AlarmController :=
  match s.active_time with
  | none => s
  | some t =>
    if s.alarm_active then s
    else if current_time.hour == t.hour && current_time.minute == t.minute then
      { s with alarm_active := true, pin_level := true
               pin_active_writes := s.pin_active_writes + 1
               emit_count := s.emit_count + 1
               scheduled_stops := 30000 :: s.scheduled_stops }
    else s

def stop_alarm (s : AlarmController) : AlarmController :=
  { s with pin_level := false }

/-- `check_alarm` folded over a sequence of "now" instants. -/
def runChecks (s : AlarmController) (nows : List PyDT) : AlarmController :=
  nows.foldl check_alarm s

end AlarmController

/-- One externally triggerable controller operation (user action, per-second
evaluation, or the dwell timer's `stop_alarm`). -/
inductive AlarmOp where
  | setAlarm (t : TimeHM)
  | clearAlarm
  | checkAlarm (now : PyDT)
  | stopAlarm
deriving Repr, DecidableEq

def applyOp (s : AlarmController) : AlarmOp → AlarmController
  | .setAlarm t => s.set_alarm t
  | .clearAlarm => s.clear_alarm
  | .checkAlarm now => s.check_alarm now
  | .stopAlarm => s.stop_alarm

/-- Controller state after a sequence of operations from startup. -/
def runOps (ops : List AlarmOp) : AlarmController :=
  ops.foldl applyOp AlarmController.init

/-! ## TodoistClient (src/main.py lines 117-140)

The HTTP exchange is external I/O; the decoded JSON array (`response.json()`)
enters the model as a parameter. -/

/-- `TodoItem` dataclass. The `content` field is annotated `str` in the
source but Python stores whatever `item.get("content", "")` returns, so the
raw JSON value is kept. -/
structure TodoItem where
  content : Json
  due : Option String

/-- Body of the parsing loop for one response item. The source evaluates
`item["due"].get("datetime")` and `item["due"]["datetime"]` after
`item.get("due")` was truthy, so those lookups return that same present
value; the model binds it once. -/
def parseTodoItem (item : Json) : Except PyError TodoItem := do
  let dueVal ← dictGet item "due" Json.null
  let due_str ←
    if pyTruthy dueVal then do
      let dtVal ← dictGet dueVal "datetime" Json.null
      if pyTruthy dtVal then
        match dtVal with
        | .str dstr =>
          match fromisoformat dstr with
          | some due_dt =>
            pure (some (formatHM due_dt.hour due_dt.minute))
          | none => Except.error .valueError
        | _ => Except.error .typeError
      else pure none
    else pure none
  let contentVal ← dictGet item "content" (Json.str "")
  pure ⟨contentVal, due_str⟩

namespace TodoistClient

/-- `fetch_today`, with the decoded response array as a parameter (only
reached when a token is configured; transport errors are raised by
`requests` before this parsing and are outside the model). -/
def fetch_today (token : Option String) (data : List Json) :
    Except PyError (List TodoItem) :=
  if !optStrTruthy token then
    .ok [⟨Json.str "TODOIST_API_TOKEN nicht gesetzt", none⟩]
  else
    data.mapM parseTodoItem

end TodoistClient

/-! ## GoogleCalendarClient (src/main.py lines 143-222) -/

/-- `CalendarEvent` dataclass; `end` is reserved in Lean, hence `end_`.
`summary` keeps the raw JSON value for the same reason as
`TodoItem.content`. -/
structure CalendarEvent where
  summary : Json
  start : PyDT
  end_ : PyDT

namespace GoogleCalendarClient

/-- `_parse_iso_time`. In the naive-datetime branch the source evaluates
`ZoneInfo("Europe/Berlin")`, but no `ZoneInfo` is imported anywhere in
`src/main.py`, so that branch raises `NameError` at runtime. -/
def parse_iso_time (value : String) : Except PyError PyDT :=
  if value.data.contains 'T' then
    match fromisoformat value with
    | none => .error .valueError
    | some dt =>
      if dt.tz.isNone then .error .nameError
      else .ok dt
  else
    match fromisoformat (value ++ "T00:00:00+00:00") with
    | none => .error .valueError
    | some dt => .ok dt

/-- `_parse_iso_time` applied to a start/end value taken from the response
JSON: `"T" in value` on a non-string raises `TypeError`. -/
def parseIsoJson (j : Json) : Except PyError PyDT :=
  match j with
  | .str s => parse_iso_time s
  | _ => .error .typeError

/-- The event loop of `fetch_today`: items lacking a truthy start or end are
skipped (`continue`), the rest are parsed in order. -/
def parseEvents : List Json → Except PyError (List CalendarEvent)
  | [] => .ok []
  | event :: rest => do
    let startObj ← dictGet event "start" (Json.obj [])
    let startDT ← dictGet startObj "dateTime" Json.null
    let startDate ← dictGet startObj "date" Json.null
    let start_str := if pyTruthy startDT then startDT else startDate
    let endObj ← dictGet event "end" (Json.obj [])
    let endDT ← dictGet endObj "dateTime" Json.null
    let endDate ← dictGet endObj "date" Json.null
    let end_str := if pyTruthy endDT then endDT else endDate
    if !pyTruthy start_str || !pyTruthy end_str then
      parseEvents rest
    else do
      let start_dt ← parseIsoJson start_str
      let end_dt ← parseIsoJson end_str
      let summary ← dictGet event "summary" (Json.str "Ohne Titel")
      let parsedRest ← parseEvents rest
      pure (⟨summary, start_dt, end_dt⟩ :: parsedRest)

/-- `fetch_today`. `now` stands for `datetime.now(timezone.utc)` and
`events` for the service call's `items` array (only reached in the fully
configured case; credential loading and transport are external I/O). -/
def fetch_today (api_available : Bool)
    (credentials_file calendar_id : Option String)
    (now : PyDT) (events : List Json) :
    Except PyError (List CalendarEvent) :=
  if !api_available then
    .ok [⟨Json.str "Google API Bibliothek nicht installiert", now, addOneHour now⟩]
  else if !optStrTruthy credentials_file || !optStrTruthy calendar_id then
    .ok [⟨Json.str "GOOGLE_SERVICE_ACCOUNT_FILE oder GOOGLE_CALENDAR_ID fehlt",
          now, addOneHour now⟩]
  else
    parseEvents events

end GoogleCalendarClient

/-! ## AlarmFavorites (src/main.py lines 301-340)

The store's state is its `favorites` list of two optional `"HH:MM"`
strings. File I/O and `json.loads` are external; their outcome enters as a
`FavoritesFile` value. -/

/-- Outcome of `self.path.exists()` / `read_text()` / `json.loads(...)`. -/
inductive FavoritesFile where
  | missing
  | unreadable
  | invalidJson
  | parsed (data : Json)

/-- Python `len`. -/
def pyLen (j : Json) : Except PyError Nat :=
  match j with
  | .str s => .ok s.length
  | .arr xs => .ok xs.length
  | .obj kvs => .ok kvs.length
  | _ => .error .typeError

/-- Python subscripting `v[i]` with an integer index. -/
def pyIndex (j : Json) (i : Nat) : Except PyError Json :=
  match j with
  | .arr xs =>
    match xs.get? i with
    | some v => .ok v
    | none => .error .indexError
  | .str s =>
    match s.data.get? i with
    | some c => .ok (.str (String.singleton c))
    | none => .error .indexError
  | .obj _ => .error .keyError
  | _ => .error .typeError

namespace AlarmFavorites

/-- `_load`, starting from `__init__`'s `favorites = [None, None]`. Only
`OSError` and `json.JSONDecodeError` are caught (modelled by the
`unreadable` / `invalidJson` outcomes); any other exception inside the
`try` body propagates out of the constructor. -/
def load (file : FavoritesFile) : Except PyError (List (Option String)) :=
  match file with
  | .missing => .ok [none, none]
  | .unreadable => .ok [none, none]
  | .invalidJson => .ok [none, none]
  | .parsed data => do
    let favs ← dictGet data "favorites" (Json.arr [])
    let n ← pyLen favs
    (List.range (min 2 n)).foldlM
      (fun acc idx => do
        let v ← pyIndex favs idx
        match v with
        | .str s => pure (acc.set idx (some s))
        | _ => pure acc)
      [none, none]

/-- The JSON value `_save` persists (`{"favorites": self.favorites}`);
`json.dumps` followed by `json.loads` is the identity on it. -/
def favoritesJson (favorites : List (Option String)) : Json :=
  .obj [("favorites", .arr (favorites.map fun o =>
    match o with
    | none => Json.null
    | some s => Json.str s))]

/-- `set_favorite` on the in-memory list (the source then calls `_save`;
`value.toString("HH:mm")` is `formatHM`). -/
def set_favorite (favorites : List (Option String)) (index : Nat)
    (value : TimeHM) : List (Option String) :=
  if index == 0 || index == 1 then
    favorites.set index (some (formatHM value.hour value.minute))
  else favorites

/-- Character-level form of `parseHHMM` below. -/
def parseHHMMList : List Char → Option TimeHM
  | [h1, h2, ':', m1, m2] => do
    let h ← num2 h1 h2
    let m ← num2 m1 m2
    if h < 24 && m < 60 then pure ⟨h, m⟩ else none
  | _ => none

/-- Modelled from Qt: `QTime.fromString(value, "HH:mm")` followed by
`isValid()` — a two-digit hour, a colon, a two-digit minute, in range. -/
def parseHHMM (s : String) : Option TimeHM :=
  parseHHMMList s.data

def get_favorite (favorites : List (Option String)) (index : Nat) :
    Option TimeHM :=
  if index != 0 && index != 1 then none
  else
    match favorites.getD index none with
    | none => none
    | some value =>
      if value = "" then none
      else parseHHMM value

end AlarmFavorites

/-! ## Lemmas about the alarm controller -/

namespace AlarmController

/-- The state `check_alarm`'s firing branch produces. -/
def fired (s : AlarmController) : AlarmController :=
  { s with alarm_active := true, pin_level := true
           pin_active_writes := s.pin_active_writes + 1
           emit_count := s.emit_count + 1
           scheduled_stops := 30000 :: s.scheduled_stops }

theorem check_alarm_of_no_time (s : AlarmController) (now : PyDT)
    (h : s.active_time = none) : s.check_alarm now = s := by
  unfold check_alarm
  rw [h]

theorem check_alarm_of_active (s : AlarmController) (now : PyDT)
    (h : s.alarm_active = true) : s.check_alarm now = s := by
  unfold check_alarm
  cases hat : s.active_time <;> simp [h]

theorem check_alarm_fire (s : AlarmController) (now : PyDT) (t : TimeHM)
    (harm : s.active_time = some t) (hact : s.alarm_active = false)
    (hh : now.hour = t.hour) (hm : now.minute = t.minute) :
    s.check_alarm now = fired s := by
  unfold check_alarm
  rw [harm]
  simp [hact, hh, hm, fired, harm]

theorem check_alarm_nomatch (s : AlarmController) (now : PyDT) (t : TimeHM)
    (harm : s.active_time = some t) (hact : s.alarm_active = false)
    (hnm : ¬(now.hour = t.hour ∧ now.minute = t.minute)) :
    s.check_alarm now = s := by
  unfold check_alarm
  rw [harm]
  simp only [hact]
  have : (now.hour == t.hour && now.minute == t.minute) = false := by
    rcases Decidable.not_and_iff_or_not.mp hnm with h | h <;> simp [h]
  simp [this]

theorem runChecks_nil (s : AlarmController) : s.runChecks [] = s := rfl

theorem runChecks_cons (s : AlarmController) (n : PyDT) (ns : List PyDT) :
    s.runChecks (n :: ns) = (s.check_alarm n).runChecks ns := rfl

theorem runChecks_of_active (s : AlarmController) (nows : List PyDT)
    (h : s.alarm_active = true) : s.runChecks nows = s := by
  induction nows with
  | nil => rfl
  | cons n ns ih => rw [runChecks_cons, check_alarm_of_active s n h, ih]

/-- From an armed, untriggered state, a check sequence containing a matching
minute lands exactly in the fired state: the trigger happens once, however
many further matching minutes follow. -/
theorem runChecks_eq_fired (s : AlarmController) (t : TimeHM)
    (nows : List PyDT)
    (harm : s.active_time = some t) (hact : s.alarm_active = false)
    (hpass : ∃ now ∈ nows, now.hour = t.hour ∧ now.minute = t.minute) :
    s.runChecks nows = fired s := by
  induction nows with
  | nil => simp at hpass
  | cons n ns ih =>
    by_cases hmatch : n.hour = t.hour ∧ n.minute = t.minute
    · rw [runChecks_cons, check_alarm_fire s n t harm hact hmatch.1 hmatch.2]
      exact runChecks_of_active _ ns rfl
    · rw [runChecks_cons, check_alarm_nomatch s n t harm hact hmatch]
      apply ih
      rcases hpass with ⟨x, hx, hxm⟩
      rcases List.mem_cons.mp hx with rfl | hx
      · exact absurd hxm hmatch
      · exact ⟨x, hx, hxm⟩

end AlarmController

/-- C1: from any armed, untriggered controller state, any sequence of
`check_alarm` evaluations that passes through the armed minute triggers
exactly one pin-active write and one notification — further evaluations
(matching or not) never add another — and re-arming with `set_alarm`
re-enables firing at the next matching evaluation. -/
theorem alarm_fires_exactly_once (s : AlarmController) (t : TimeHM)
    (nows : List PyDT)
    (harm : s.active_time = some t) (hact : s.alarm_active = false)
    (hpass : ∃ now ∈ nows, now.hour = t.hour ∧ now.minute = t.minute) :
    (s.runChecks nows).pin_active_writes = s.pin_active_writes + 1 ∧
    (s.runChecks nows).emit_count = s.emit_count + 1 ∧
    (s.runChecks nows).alarm_active = true ∧
    (∀ laterNows : List PyDT,
      ((s.runChecks nows).runChecks laterNows).pin_active_writes =
        s.pin_active_writes + 1) ∧
    (∀ t2 : TimeHM, ∀ now2 : PyDT, now2.hour = t2.hour →
      now2.minute = t2.minute →
      (((s.runChecks nows).set_alarm t2).check_alarm now2).pin_active_writes =
        s.pin_active_writes + 2) := by
  have hfired := AlarmController.runChecks_eq_fired s t nows harm hact hpass
  rw [hfired]
  refine ⟨rfl, rfl, rfl, ?_, ?_⟩
  · intro laterNows
    rw [AlarmController.runChecks_of_active _ laterNows rfl]
    rfl
  · intro t2 now2 hh hm
    rw [AlarmController.check_alarm_fire _ now2 t2 rfl rfl hh hm]
    rfl

/-- Witness for C1: arm at 07:30 and evaluate minute-by-minute through a
window containing 07:30 twice — exactly one pin-active write results. -/
theorem alarm_fires_exactly_once_witness :
    ((AlarmController.init.set_alarm ⟨7, 30⟩).runChecks
      [⟨2024, 5, 1, 7, 29, 0, none⟩, ⟨2024, 5, 1, 7, 30, 0, none⟩,
       ⟨2024, 5, 1, 7, 30, 30, none⟩, ⟨2024, 5, 1, 7, 31, 0, none⟩]
     ).pin_active_writes = 0 + 1 :=
  (alarm_fires_exactly_once (AlarmController.init.set_alarm ⟨7, 30⟩) ⟨7, 30⟩
    [⟨2024, 5, 1, 7, 29, 0, none⟩, ⟨2024, 5, 1, 7, 30, 0, none⟩,
     ⟨2024, 5, 1, 7, 30, 30, none⟩, ⟨2024, 5, 1, 7, 31, 0, none⟩]
    rfl rfl ⟨⟨2024, 5, 1, 7, 30, 0, none⟩, by simp, rfl, rfl⟩).1

/-- C2: `check_alarm` is a no-op with no armed time or with the triggered
flag set; on an armed, untriggered state at a matching hour/minute it sets
the flag, writes the pin active, emits the notification, and schedules a
stop after the 30000 ms (30 second) dwell. -/
theorem check_alarm_spec (s : AlarmController) (now : PyDT) :
    (s.active_time = none → s.check_alarm now = s) ∧
    (s.alarm_active = true → s.check_alarm now = s) ∧
    (∀ t : TimeHM, s.active_time = some t → s.alarm_active = false →
      now.hour = t.hour → now.minute = t.minute →
      s.check_alarm now =
        { s with alarm_active := true, pin_level := true
                 pin_active_writes := s.pin_active_writes + 1
                 emit_count := s.emit_count + 1
                 scheduled_stops := 30000 :: s.scheduled_stops }) :=
  ⟨AlarmController.check_alarm_of_no_time s now,
   AlarmController.check_alarm_of_active s now,
   fun t harm hact hh hm =>
     AlarmController.check_alarm_fire s now t harm hact hh hm⟩

/-- Witness for C2: the fire case at 07:30 from a freshly armed controller. -/
theorem check_alarm_spec_witness :
    (AlarmController.init.set_alarm ⟨7, 30⟩).check_alarm
        ⟨2024, 5, 1, 7, 30, 0, none⟩ =
      { AlarmController.init.set_alarm ⟨7, 30⟩ with
          alarm_active := true, pin_level := true
          pin_active_writes := 0 + 1, emit_count := 0 + 1
          scheduled_stops := [30000] } :=
  (check_alarm_spec (AlarmController.init.set_alarm ⟨7, 30⟩)
      ⟨2024, 5, 1, 7, 30, 0, none⟩).2.2 ⟨7, 30⟩ rfl rfl rfl rfl

theorem applyOp_preserves_inv (s : AlarmController) (op : AlarmOp)
    (h : s.alarm_active = true → s.active_time.isSome = true) :
    (applyOp s op).alarm_active = true →
      (applyOp s op).active_time.isSome = true := by
  cases op with
  | setAlarm t => simp [applyOp, AlarmController.set_alarm]
  | clearAlarm => simp [applyOp, AlarmController.clear_alarm]
  | checkAlarm now =>
    show (s.check_alarm now).alarm_active = true →
      (s.check_alarm now).active_time.isSome = true
    cases hat : s.active_time with
    | none => rw [AlarmController.check_alarm_of_no_time s now hat]; exact h
    | some t =>
      cases hact : s.alarm_active with
      | true => rw [AlarmController.check_alarm_of_active s now hact]; exact h
      | false =>
        by_cases hm : now.hour = t.hour ∧ now.minute = t.minute
        · rw [AlarmController.check_alarm_fire s now t hat hact hm.1 hm.2]
          intro
          simp [AlarmController.fired, hat]
        · rw [AlarmController.check_alarm_nomatch s now t hat hact hm]
          exact h
  | stopAlarm =>
    show ({ s with pin_level := false } : AlarmController).alarm_active =
        true → _
    exact h

theorem foldl_preserves_inv (ops : List AlarmOp) (s : AlarmController)
    (h : s.alarm_active = true → s.active_time.isSome = true) :
    (ops.foldl applyOp s).alarm_active = true →
      (ops.foldl applyOp s).active_time.isSome = true := by
  induction ops generalizing s with
  | nil => exact h
  | cons op ops ih =>
    exact ih (applyOp s op) (applyOp_preserves_inv s op h)

/-- C3: in every controller state reachable from startup by `set_alarm`,
`clear_alarm`, `check_alarm` and `stop_alarm` calls, the triggered flag is
true only while an armed time is present. -/
theorem triggered_implies_armed (ops : List AlarmOp)
    (h : (runOps ops).alarm_active = true) :
    (runOps ops).active_time.isSome = true :=
  foldl_preserves_inv ops AlarmController.init (by intro hc; cases hc) h

/-- Witness for C3: arm at 07:30 and evaluate at a matching minute; the
controller is triggered and the armed time is indeed present. -/
theorem triggered_implies_armed_witness :
    (runOps [.setAlarm ⟨7, 30⟩,
             .checkAlarm ⟨2024, 5, 1, 7, 30, 0, none⟩]).alarm_active = true ∧
    (runOps [.setAlarm ⟨7, 30⟩,
             .checkAlarm ⟨2024, 5, 1, 7, 30, 0, none⟩]).active_time.isSome =
      true :=
  ⟨rfl, triggered_implies_armed
    [.setAlarm ⟨7, 30⟩, .checkAlarm ⟨2024, 5, 1, 7, 30, 0, none⟩] rfl⟩

/-- C4: `clear_alarm` from any state leaves no armed time, a cleared
triggered flag, and the pin last written inactive. -/
theorem clear_alarm_resets (s : AlarmController) :
    (s.clear_alarm).active_time = none ∧
    (s.clear_alarm).alarm_active = false ∧
    (s.clear_alarm).pin_level = false :=
  ⟨rfl, rfl, rfl⟩

/-- C5: `stop_alarm` writes the pin inactive and changes nothing else:
armed time, triggered flag, and the rest of the observable footprint are
untouched. -/
theorem stop_alarm_pin_only (s : AlarmController) :
    (s.stop_alarm).pin_level = false ∧
    (s.stop_alarm).active_time = s.active_time ∧
    (s.stop_alarm).alarm_active = s.alarm_active ∧
    (s.stop_alarm).pin_active_writes = s.pin_active_writes ∧
    (s.stop_alarm).emit_count = s.emit_count ∧
    (s.stop_alarm).scheduled_stops = s.scheduled_stops :=
  ⟨rfl, rfl, rfl, rfl, rfl, rfl⟩

/-- C6: with required configuration absent — a missing/empty Todoist token,
a missing Google client library, or a missing credentials file / calendar
id — both clients' `fetch_today` return (never raise) exactly one
placeholder record whose text names the missing item. -/
theorem fetch_today_missing_config :
    (∀ token : Option String, ∀ data : List Json,
      optStrTruthy token = false →
      TodoistClient.fetch_today token data =
        .ok [⟨Json.str "TODOIST_API_TOKEN nicht gesetzt", none⟩]) ∧
    (∀ cf ci : Option String, ∀ now : PyDT, ∀ events : List Json,
      GoogleCalendarClient.fetch_today false cf ci now events =
        .ok [⟨Json.str "Google API Bibliothek nicht installiert",
              now, addOneHour now⟩]) ∧
    (∀ cf ci : Option String, ∀ now : PyDT, ∀ events : List Json,
      optStrTruthy cf = false ∨ optStrTruthy ci = false →
      GoogleCalendarClient.fetch_today true cf ci now events =
        .ok [⟨Json.str "GOOGLE_SERVICE_ACCOUNT_FILE oder GOOGLE_CALENDAR_ID fehlt",
              now, addOneHour now⟩]) := by
  refine ⟨?_, ?_, ?_⟩
  · intro token data htok
    unfold TodoistClient.fetch_today
    rw [htok]
    rfl
  · intro cf ci now events
    rfl
  · intro cf ci now events hmiss
    unfold GoogleCalendarClient.fetch_today
    rcases hmiss with h | h <;> simp [h]

/-- Witness for C6: a concrete unconfigured Todoist client and a Google
client missing its calendar id. -/
theorem fetch_today_missing_config_witness :
    TodoistClient.fetch_today none [] =
      .ok [⟨Json.str "TODOIST_API_TOKEN nicht gesetzt", none⟩] ∧
    GoogleCalendarClient.fetch_today true (some "/tmp/creds.json") none
        ⟨2024, 5, 1, 12, 0, 0, some 0⟩ [] =
      .ok [⟨Json.str "GOOGLE_SERVICE_ACCOUNT_FILE oder GOOGLE_CALENDAR_ID fehlt",
            ⟨2024, 5, 1, 12, 0, 0, some 0⟩,
            addOneHour ⟨2024, 5, 1, 12, 0, 0, some 0⟩⟩] :=
  ⟨fetch_today_missing_config.1 none [] rfl,
   fetch_today_missing_config.2.2 (some "/tmp/creds.json") none
     ⟨2024, 5, 1, 12, 0, 0, some 0⟩ [] (Or.inr rfl)⟩

/-- C7 evaluation: `_parse_iso_time` raises `NameError` on a datetime
without a UTC offset, because `ZoneInfo` is referenced but never imported;
offset-carrying and date-only inputs do parse (date-only inputs get UTC
appended). -/
theorem parse_iso_time_naive_name_error :
    GoogleCalendarClient.parse_iso_time "2024-05-01T10:00:00" =
      .error .nameError ∧
    GoogleCalendarClient.parse_iso_time "2024-05-01T10:00:00+02:00" =
      .ok ⟨2024, 5, 1, 10, 0, 0, some 120⟩ ∧
    GoogleCalendarClient.parse_iso_time "2024-05-01" =
      .ok ⟨2024, 5, 1, 0, 0, 0, some 0⟩ :=
  ⟨rfl, rfl, rfl⟩

/-- C8 counterexample: a readable file whose content is valid JSON but not
an object — here the array `[]` — makes `_load` raise `AttributeError`
(`data.get` on a list), which the `except (OSError, JSONDecodeError)`
clause does not catch. -/
theorem load_valid_json_nonobject_raises :
    AlarmFavorites.load (.parsed (Json.arr [])) = .error .attributeError :=
  rfl

/-- C8 amended: a missing file, an unreadable file, or a file whose content
is not valid JSON leaves both favorite slots absent and raises nothing. -/
theorem load_unreadable_or_invalid_degrades :
    AlarmFavorites.load .missing = .ok [none, none] ∧
    AlarmFavorites.load .unreadable = .ok [none, none] ∧
    AlarmFavorites.load .invalidJson = .ok [none, none] :=
  ⟨rfl, rfl, rfl⟩

/-! ## Lemmas for the favorites round trip -/

theorem num2_pad2 : ∀ n < 100,
    num2 (Nat.digitChar (n / 10 % 10)) (Nat.digitChar (n % 10)) = some n := by
  decide

theorem formatHM_ne_empty (h m : Nat) : formatHM h m ≠ "" := by
  intro hx
  have hdata : (formatHM h m).data = "".data := congrArg String.data hx
  simp [formatHM, pad2] at hdata

theorem parseHHMM_formatHM (h m : Nat) (hh : h < 24) (hm : m < 60) :
    AlarmFavorites.parseHHMM (formatHM h m) = some ⟨h, m⟩ := by
  show AlarmFavorites.parseHHMMList
    [Nat.digitChar (h / 10 % 10), Nat.digitChar (h % 10), ':',
     Nat.digitChar (m / 10 % 10), Nat.digitChar (m % 10)] = some ⟨h, m⟩
  simp only [AlarmFavorites.parseHHMMList]
  rw [num2_pad2 h (by omega), num2_pad2 m (by omega)]
  simp [hh, hm]

/-- C9: saving a valid hour/minute value into slot 0 or 1, persisting the
store, reloading it from the persisted JSON, and reading the slot back
returns exactly that value (and the reloaded store equals the saved one). -/
theorem favorites_roundtrip (t : TimeHM) (ht : t.hour < 24 ∧ t.minute < 60)
    (index : Nat) (hi : index = 0 ∨ index = 1)
    (favorites : List (Option String)) (hlen : favorites.length = 2) :
    AlarmFavorites.load (.parsed (AlarmFavorites.favoritesJson
        (AlarmFavorites.set_favorite favorites index t))) =
      .ok (AlarmFavorites.set_favorite favorites index t) ∧
    AlarmFavorites.get_favorite
        (AlarmFavorites.set_favorite favorites index t) index = some t := by
  obtain ⟨a, b, rfl⟩ := List.length_eq_two.mp hlen
  have hne := formatHM_ne_empty t.hour t.minute
  have hparse := parseHHMM_formatHM t.hour t.minute ht.1 ht.2
  rcases hi with rfl | rfl
  · refine ⟨?_, ?_⟩
    · cases b with
      | none => rfl
      | some s => rfl
    · show (if formatHM t.hour t.minute = "" then none
        else AlarmFavorites.parseHHMM (formatHM t.hour t.minute)) = some t
      rw [if_neg hne, hparse]
  · refine ⟨?_, ?_⟩
    · cases a with
      | none => rfl
      | some s => rfl
    · show (if formatHM t.hour t.minute = "" then none
        else AlarmFavorites.parseHHMM (formatHM t.hour t.minute)) = some t
      rw [if_neg hne, hparse]

/-- Witness for C9: slot 0 saved as 06:45 in a fresh store comes back as
06:45 after a reload from the persisted JSON. -/
theorem favorites_roundtrip_witness :
    AlarmFavorites.load (.parsed (AlarmFavorites.favoritesJson
        (AlarmFavorites.set_favorite [none, none] 0 ⟨6, 45⟩))) =
      .ok (AlarmFavorites.set_favorite [none, none] 0 ⟨6, 45⟩) ∧
    AlarmFavorites.get_favorite
        (AlarmFavorites.set_favorite [none, none] 0 ⟨6, 45⟩) 0 =
      some ⟨6, 45⟩ :=
  favorites_roundtrip ⟨6, 45⟩ ⟨by decide, by decide⟩ 0 (Or.inl rfl)
    [none, none] rfl
/-! ## Lemmas for the Todoist item rule -/

theorem except_ok_bind {ε α β : Type} (a : α) (f : α → Except ε β) :
    (Except.ok a >>= f : Except ε β) = f a := rfl

theorem except_error_bind {ε α β : Type} (e : ε) (f : α → Except ε β) :
    ((Except.error e : Except ε α) >>= f) = (Except.error e : Except ε β) :=
  rfl

theorem except_pure {ε α : Type} (a : α) :
    (pure a : Except ε α) = Except.ok a := rfl

theorem pyTruthy_null : pyTruthy Json.null = false := rfl

/-- Whenever the Todoist item loop body succeeds on an object, the record's
text is `item.get("content", "")` and any due it carries is the `%H:%M`
rendering of the nested `due.datetime` value. -/
theorem parseTodoItem_ok_shape (kvs : List (String × Json)) (r : TodoItem)
    (hok : parseTodoItem (.obj kvs) = .ok r) :
    r.content = (jsonLookup kvs "content").getD (.str "") ∧
    ∀ s, r.due = some s →
      ∃ dkvs dstr dt, jsonLookup kvs "due" = some (.obj dkvs) ∧
        jsonLookup dkvs "datetime" = some (.str dstr) ∧
        fromisoformat dstr = some dt ∧ s = formatHM dt.hour dt.minute := by
  cases hdue : jsonLookup kvs "due" with
  | none =>
    have hval : parseTodoItem (.obj kvs) =
        .ok ⟨(jsonLookup kvs "content").getD (.str ""), none⟩ := by
      simp [parseTodoItem, dictGet, hdue, pyTruthy_null, except_ok_bind,
        except_pure]
    rw [hval] at hok
    obtain rfl := Except.ok.inj hok
    refine ⟨rfl, fun s hs => ?_⟩
    simp at hs
  | some v =>
    cases hv : pyTruthy v with
    | false =>
      have hval : parseTodoItem (.obj kvs) =
          .ok ⟨(jsonLookup kvs "content").getD (.str ""), none⟩ := by
        simp [parseTodoItem, dictGet, hdue, hv, except_ok_bind, except_pure]
      rw [hval] at hok
      obtain rfl := Except.ok.inj hok
      refine ⟨rfl, fun s hs => ?_⟩
      simp at hs
    | true =>
      cases v with
      | null => exact Bool.noConfusion hv
      | bool b =>
        have hval : parseTodoItem (.obj kvs) = .error .attributeError := by
          simp [parseTodoItem, dictGet, hdue, hv, except_ok_bind,
            except_error_bind]
        rw [hval] at hok
        simp at hok
      | num n =>
        have hval : parseTodoItem (.obj kvs) = .error .attributeError := by
          simp [parseTodoItem, dictGet, hdue, hv, except_ok_bind,
            except_error_bind]
        rw [hval] at hok
        simp at hok
      | str s2 =>
        have hval : parseTodoItem (.obj kvs) = .error .attributeError := by
          simp [parseTodoItem, dictGet, hdue, hv, except_ok_bind,
            except_error_bind]
        rw [hval] at hok
        simp at hok
      | arr xs =>
        have hval : parseTodoItem (.obj kvs) = .error .attributeError := by
          simp [parseTodoItem, dictGet, hdue, hv, except_ok_bind,
            except_error_bind]
        rw [hval] at hok
        simp at hok
      | obj dkvs =>
        cases hdt : jsonLookup dkvs "datetime" with
        | none =>
          have hval : parseTodoItem (.obj kvs) =
              .ok ⟨(jsonLookup kvs "content").getD (.str ""), none⟩ := by
            simp [parseTodoItem, dictGet, hdue, hv, hdt, pyTruthy_null,
              except_ok_bind, except_pure]
          rw [hval] at hok
          obtain rfl := Except.ok.inj hok
          refine ⟨rfl, fun s hs => ?_⟩
          simp at hs
        | some dv =>
          cases hdvt : pyTruthy dv with
          | false =>
            have hval : parseTodoItem (.obj kvs) =
                .ok ⟨(jsonLookup kvs "content").getD (.str ""), none⟩ := by
              simp [parseTodoItem, dictGet, hdue, hv, hdt, hdvt,
                except_ok_bind, except_pure]
            rw [hval] at hok
            obtain rfl := Except.ok.inj hok
            refine ⟨rfl, fun s hs => ?_⟩
            simp at hs
          | true =>
            cases dv with
            | null => exact Bool.noConfusion hdvt
            | bool b =>
              have hval : parseTodoItem (.obj kvs) = .error .typeError := by
                simp [parseTodoItem, dictGet, hdue, hv, hdt, hdvt,
                  except_ok_bind, except_error_bind]
              rw [hval] at hok
              simp at hok
            | num n =>
              have hval : parseTodoItem (.obj kvs) = .error .typeError := by
                simp [parseTodoItem, dictGet, hdue, hv, hdt, hdvt,
                  except_ok_bind, except_error_bind]
              rw [hval] at hok
              simp at hok
            | arr xs =>
              have hval : parseTodoItem (.obj kvs) = .error .typeError := by
                simp [parseTodoItem, dictGet, hdue, hv, hdt, hdvt,
                  except_ok_bind, except_error_bind]
              rw [hval] at hok
              simp at hok
            | obj okvs =>
              have hval : parseTodoItem (.obj kvs) = .error .typeError := by
                simp [parseTodoItem, dictGet, hdue, hv, hdt, hdvt,
                  except_ok_bind, except_error_bind]
              rw [hval] at hok
              simp at hok
            | str dstr =>
              cases hiso : fromisoformat dstr with
              | none =>
                have hval : parseTodoItem (.obj kvs) =
                    .error .valueError := by
                  simp [parseTodoItem, dictGet, hdue, hv, hdt, hdvt, hiso,
                    except_ok_bind, except_error_bind]
                rw [hval] at hok
                simp at hok
              | some dt =>
                have hval : parseTodoItem (.obj kvs) =
                    .ok ⟨(jsonLookup kvs "content").getD (.str ""),
                         some (formatHM dt.hour dt.minute)⟩ := by
                  simp [parseTodoItem, dictGet, hdue, hv, hdt, hdvt, hiso,
                    except_ok_bind, except_pure]
                rw [hval] at hok
                obtain rfl := Except.ok.inj hok
                refine ⟨rfl, fun s hs => ?_⟩
                exact ⟨dkvs, dstr, dt, rfl, hdt, hiso,
                  (Option.some.inj hs).symm⟩

/-- C10: for a Todoist response item (a JSON object), the parsed record's
due is an `%H:%M` rendering exactly of a nested `due.datetime` value; with
no `"due"` entry, a falsy one, or a due object without a truthy
`"datetime"` (a date-only due), the due is absent; and the text falls back
to the empty string when `"content"` is missing. -/
theorem parseTodoItem_due_rule (kvs : List (String × Json)) :
    ((jsonLookup kvs "due" = none ∨
      (∃ v, jsonLookup kvs "due" = some v ∧ pyTruthy v = false)) →
      parseTodoItem (.obj kvs) =
        .ok ⟨(jsonLookup kvs "content").getD (.str ""), none⟩) ∧
    (∀ dkvs, jsonLookup kvs "due" = some (.obj dkvs) →
      pyTruthy (.obj dkvs) = true →
      (jsonLookup dkvs "datetime" = none ∨
       (∃ dv, jsonLookup dkvs "datetime" = some dv ∧ pyTruthy dv = false)) →
      parseTodoItem (.obj kvs) =
        .ok ⟨(jsonLookup kvs "content").getD (.str ""), none⟩) ∧
    (∀ r s, parseTodoItem (.obj kvs) = .ok r → r.due = some s →
      ∃ dkvs dstr dt, jsonLookup kvs "due" = some (.obj dkvs) ∧
        jsonLookup dkvs "datetime" = some (.str dstr) ∧
        fromisoformat dstr = some dt ∧
        s = formatHM dt.hour dt.minute) ∧
    (∀ r, parseTodoItem (.obj kvs) = .ok r →
      jsonLookup kvs "content" = none → r.content = .str "") := by
  refine ⟨?_, ?_, ?_, ?_⟩
  · rintro (hdue | ⟨v, hdue, hfal⟩)
    · simp [parseTodoItem, dictGet, hdue, pyTruthy_null, except_ok_bind,
        except_pure]
    · simp [parseTodoItem, dictGet, hdue, hfal, except_ok_bind, except_pure]
  · rintro dkvs hdue htru (hdt | ⟨dv, hdt, hfal⟩)
    · simp [parseTodoItem, dictGet, hdue, htru, hdt, pyTruthy_null,
        except_ok_bind, except_pure]
    · simp [parseTodoItem, dictGet, hdue, htru, hdt, hfal, except_ok_bind,
        except_pure]
  · intro r s hok hs
    exact (parseTodoItem_ok_shape kvs r hok).2 s hs
  · intro r hok hcontent
    rw [(parseTodoItem_ok_shape kvs r hok).1, hcontent]
    rfl

/-- Witness for C10: a date-only due with a missing content field yields an
absent due and empty text, and the `16:30` due parsed from a concrete item
is traced back to its nested `due.datetime`. -/
theorem parseTodoItem_due_rule_witness :
    parseTodoItem (.obj [("due", .obj [("date", .str "2024-05-01")])]) =
      .ok ⟨.str "", none⟩ ∧
    (∃ dkvs dstr dt,
      jsonLookup [("content", Json.str "Task"),
          ("due", Json.obj [("datetime", Json.str "2024-05-01T16:30:00")])]
          "due" = some (.obj dkvs) ∧
      jsonLookup dkvs "datetime" = some (.str dstr) ∧
      fromisoformat dstr = some dt ∧
      "16:30" = formatHM dt.hour dt.minute) := by
  constructor
  · exact (parseTodoItem_due_rule
      [("due", .obj [("date", .str "2024-05-01")])]).2.1
      [("date", .str "2024-05-01")] rfl rfl (Or.inl rfl)
  · exact (parseTodoItem_due_rule [("content", .str "Task"),
      ("due", .obj [("datetime", .str "2024-05-01T16:30:00")])]).2.2.1
      ⟨.str "Task", some "16:30"⟩ "16:30" rfl rfl

end Dashboard
